import Mathlib

/-!
Shallow embedding of jetstream.py (wind-speed computation pipeline and the
command-line driver loop), together with proofs of the specified properties.

Numeric modelling: dataset samples (wind components, coordinate axes) are
rationals; wind-speed values, which involve a square root, live in the reals.
-/

namespace Jetstream

/-- A 2-D grid of dataset samples, indexed row-major as `[latitude][longitude]`. -/
abbrev Grid := List (List ℚ)

/-- The read-only NetCDF dataset: named axes and the 4-D wind-component
fields `u`, `v`, indexed `[time][level][latitude][longitude]`
(jetstream.py, variables accessed in `ERAJetStreamData`). -/
structure Dataset where
  level : List Int
  longitude : List ℚ
  latitude : List ℚ
  time : List Int
  u : List (List Grid)
  v : List (List Grid)

/-- The `ERAJetStreamData` object: the loaded dataset plus the fields
`self.lon`, `self.lat`, `self.windspeed` that `calc_windspeed` assigns
(jetstream.py line 131). -/
structure ERAJetStreamData where
  data : Dataset
  lon : List ℚ
  lat : List ℚ
  windspeed : List (List ℝ)

/-- The level-lookup loop of `calc_windspeed` (jetstream.py lines 105-107):
scan the level axis in order and stop at the first exact match. -/
def levelIndex? : List Int → Int → Option Nat
  | [], _ => none
  | m :: rest, lv => if m = lv then some 0 else (levelIndex? rest lv).map (fun i => i + 1)

/-- The message of the `ValueError` raised when the level is absent
(jetstream.py line 109). -/
def levelErrorMsg (level : Int) : String :=
  "No " ++ toString level ++ " hPa level (maybe check with -L?)"

/-- Level lookup as used by `calc_windspeed`: first exact match, or the
`ValueError` of jetstream.py line 109 when no level matches. -/
def findLevelIndex (levels : List Int) (level : Int) : Except String Nat :=
  match levelIndex? levels level with
  | some i => Except.ok i
  | none => Except.error (levelErrorMsg level)

/-- The default sensitivity factor (jetstream.py lines 116-119):
3.5 for the 250 hPa jet-stream level, 7.5 elsewhere. -/
def defaultSensitivity (level : Int) : ℚ :=
  if level = 250 then 3.5 else 7.5

/-- Sensitivity resolution (jetstream.py line 115): Python `if not sensitivity`
treats 0 (the default argument) as "use the default factor". -/
def effectiveSensitivity (level : Int) (sensitivity : ℚ) : ℚ :=
  if sensitivity = 0 then defaultSensitivity level else sensitivity

/-- One row of the scaled magnitude grid (jetstream.py lines 121-123):
elementwise `sensitivity * sqrt(u^2 + v^2)`. -/
noncomputable def windRow (s : ℚ) : List ℚ → List ℚ → List ℝ
  | a :: as, b :: bs =>
      ((s : ℝ) * Real.sqrt ((a : ℝ) ^ 2 + (b : ℝ) ^ 2)) :: windRow s as bs
  | _, _ => []

/-- The scaled magnitude grid (jetstream.py lines 121-123), elementwise over
the two equal-shaped component grids. -/
noncomputable def windGrid (s : ℚ) : Grid → Grid → List (List ℝ)
  | u :: us, v :: vs => windRow s u v :: windGrid s us vs
  | _, _ => []

/-- Modelled from the spec: the cut position of `basemap.shiftgrid(180, ..., start=False)`
(jetstream.py line 129); the grid-shift utility is third-party code, not part of this
repository. Per the spec, the cut point is the 180-degree meridian: the first
position of the axis whose longitude is at least 180. -/
def shiftCut : List ℚ → Nat
  | [] => 0
  | x :: xs => if 180 ≤ x then 0 else shiftCut xs + 1

/-- Rotate a row so that the columns from the cut position come first
(the two halves of the axis are swapped). -/
def rotateCols (i0 : Nat) (row : List α) : List α :=
  row.drop i0 ++ row.take i0

/-- Modelled from the spec: the re-centered longitude axis produced by
`basemap.shiftgrid(180, ..., start=False)` (jetstream.py line 129, third-party):
the half of the axis from the cut point is expressed as negative (shifted by
-360) and moved to the front; the half before the cut keeps its values. -/
def shiftLon (lon : List ℚ) : List ℚ :=
  (lon.drop (shiftCut lon)).map (fun x => x - 360) ++ lon.take (shiftCut lon)

/-- Modelled from the spec: `basemap.shiftgrid(180, grid, lon, start=False)`
(jetstream.py line 129, third-party): grid columns are rotated by the same cut
as the longitude axis, and the axis is re-centered to the signed convention. -/
def shiftGrid180 (grid : List (List α)) (lon : List ℚ) : List (List α) × List ℚ :=
  (grid.map (rotateCols (shiftCut lon)), shiftLon lon)

/-- Re-centering of a single longitude value: values at or past the
180-degree meridian become negative. -/
def wrapLon (x : ℚ) : ℚ :=
  if 180 ≤ x then x - 360 else x

/-- The cut position of the inverse shift (back to the [0, 360) convention):
the first position whose longitude is non-negative. -/
def unshiftCut : List ℚ → Nat
  | [] => 0
  | x :: xs => if 0 ≤ x then 0 else unshiftCut xs + 1

/-- The inverse re-centering of the longitude axis: the non-negative half moves
back to the front and the negative half is shifted back by +360. -/
def unshiftLon (lon : List ℚ) : List ℚ :=
  lon.drop (unshiftCut lon) ++ (lon.take (unshiftCut lon)).map (fun x => x + 360)

/-- The inverse of `shiftGrid180`: rotate the grid columns back by the inverse
cut and restore the [0, 360) longitude convention. -/
def unshiftGrid (grid : List (List α)) (lon : List ℚ) : List (List α) × List ℚ :=
  (grid.map (rotateCols (unshiftCut lon)), unshiftLon lon)

/-- Cell access in a 2-D grid: row `r`, column `c`. -/
def cell (g : List (List α)) (r c : Nat) : Option α :=
  match g[r]? with
  | some row => row[c]?
  | none => none

/-- Cell access in a sample grid with default 0 (row `r`, column `c`). -/
def cellD (g : Grid) (r c : Nat) : ℚ :=
  (g.getD r []).getD c 0

/-- The message of the `IndexError` Python raises on an out-of-range
time or level index into `u`/`v`. -/
def indexErrorMsg : String := "IndexError"

/-- `ERAJetStreamData.calc_windspeed` (jetstream.py lines 99-131): resolve the
level index (raising when absent), resolve the sensitivity factor, build the
scaled magnitude grid from the `u`/`v` slices at `[idx][levindex]`, re-center
the longitude axis, and store the results on the object. -/
noncomputable def calc_windspeed (js : ERAJetStreamData) (idx : Nat) (level : Int)
    (sensitivity : ℚ) : Except String ERAJetStreamData :=
  match findLevelIndex js.data.level level with
  | Except.error e => Except.error e
  | Except.ok levindex =>
    let lon := js.data.longitude
    let lat := js.data.latitude
    let s := effectiveSensitivity level sensitivity
    match (js.data.u[idx]?).bind (fun lv => lv[levindex]?),
          (js.data.v[idx]?).bind (fun lv => lv[levindex]?) with
    | some us, some vs =>
      let w := windGrid s us vs
      let p := shiftGrid180 w lon
      Except.ok { data := js.data, lon := p.2, lat := lat, windspeed := p.1 }
    | _, _ => Except.error indexErrorMsg

/-- Observable actions of the command-line driver (`__main__`,
jetstream.py lines 166-200): lines printed to standard output, directory
creation, and image files saved. -/
inductive Event
  | printLine : String → Event
  | mkdirDone : String → Event
  | saveFig : String → Event
deriving DecidableEq

/-- What the filesystem holds at the output path when the driver starts. -/
inductive PathKind
  | absent
  | plainFile
  | directory
deriving DecidableEq

/-- The commandline arguments the driver consults in the modelled fragment
(`parse_args`, jetstream.py lines 133-164). -/
structure Args where
  listlevels : Bool
  outdir : String
  level : Int
  datafile : String

/-- The image filename of jetstream.py line 197:
`outdir/timestr-level.png` with the timestep date string. -/
def figName (outdir timestr : String) (level : Int) : String :=
  outdir ++ "/" ++ timestr ++ "-" ++ toString level ++ ".png"

/-- The result of a driver run: the process exit status and the ordered
trace of observable events. -/
structure MainResult where
  exitCode : Nat
  events : List Event

/-- The conflict report of jetstream.py line 184, printed when the output
path exists but is not a directory. -/
def conflictMsg (outdir : String) : String :=
  "Can\x27t create dir " ++ outdir ++ ": there\x27s a file by that name"

/-- The per-timestep loop of the driver (jetstream.py lines 189-200): for each
timestep, decode its date, compute the windspeed, render, save one image and
print its filename. `fmt` models the third-party date decoding
(`netCDF4.num2date` + `strftime` with the `%Y-%m-%d` pattern). `i` is the
running `enumerate` index. -/
noncomputable def runLoopFrom (fmt : Int → String) (outdir : String) (level : Int) :
    ERAJetStreamData → Nat → List Int → Except String (List Event)
  | _, _, [] => Except.ok []
  | js, i, t :: ts =>
    match calc_windspeed js i level 0 with
    | Except.error e => Except.error e
    | Except.ok js2 =>
      match runLoopFrom fmt outdir level js2 (i + 1) ts with
      | Except.error e => Except.error e
      | Except.ok evs =>
          Except.ok (Event.saveFig (figName outdir (fmt t) level) ::
                     Event.printLine (figName outdir (fmt t) level) :: evs)

/-- The full timestep loop over the dataset's time axis. -/
noncomputable def runLoop (fmt : Int → String) (outdir : String) (level : Int)
    (js : ERAJetStreamData) : Except String (List Event) :=
  runLoopFrom fmt outdir level js 0 js.data.time

/-- The driver (`__main__`, jetstream.py lines 166-200): the level-listing
mode exits 0 after printing the levels; otherwise the output directory is
created when absent, a conflicting regular file aborts with exit 1 before any
timestep is processed, and the timestep loop runs to normal completion
(exit 0). `fs` models what the filesystem holds at each path. -/
noncomputable def runMain (fs : String → PathKind) (fmt : Int → String) (args : Args)
    (js : ERAJetStreamData) : Except String MainResult :=
  if args.listlevels then
    Except.ok { exitCode := 0,
                events := Event.printLine ("Levels available in dataset " ++
                    args.datafile ++ ":") ::
                  js.data.level.map (fun l => Event.printLine ("    " ++ toString l)) }
  else
    match fs args.outdir with
    | PathKind.plainFile =>
      Except.ok { exitCode := 1, events := [Event.printLine (conflictMsg args.outdir)] }
    | PathKind.absent =>
      match runLoop fmt args.outdir args.level js with
      | Except.error e => Except.error e
      | Except.ok evs =>
          Except.ok { exitCode := 0, events := Event.mkdirDone args.outdir :: evs }
    | PathKind.directory =>
      match runLoop fmt args.outdir args.level js with
      | Except.error e => Except.error e
      | Except.ok evs => Except.ok { exitCode := 0, events := evs }

/-- A one-timestep, one-level dataset with a single 1x2 grid holding the
3-4-5 wind components of the spec's triangle check. -/
def dsTriangle : Dataset :=
  { level := [250, 500, 1000]
    longitude := [0, 180]
    latitude := [45]
    time := [0]
    u := [[[[3, 3]], [[0, 0]], [[0, 0]]]]
    v := [[[[4, 4]], [[0, 0]], [[0, 0]]]]}

/-- The `ERAJetStreamData` object wrapping `dsTriangle`, before any
`calc_windspeed` call. -/
def jsTriangle : ERAJetStreamData :=
  { data := dsTriangle, lon := [], lat := [], windspeed := [] }

/-- A minimal dataset whose only grid is empty: `calc_windspeed` succeeds on
it without producing any cells. -/
def dsEmptyGrid : Dataset :=
  { level := [250]
    longitude := [10]
    latitude := [5]
    time := [0]
    u := [[[]]]
    v := [[[]]]}

/-- The `ERAJetStreamData` object wrapping `dsEmptyGrid`. -/
def jsEmptyGrid : ERAJetStreamData :=
  { data := dsEmptyGrid, lon := [], lat := [], windspeed := [] }

/-- A dataset whose single cell has zero wind in both components. -/
def dsZeroWind : Dataset :=
  { level := [250]
    longitude := [0]
    latitude := [0]
    time := [0]
    u := [[[[0]]]]
    v := [[[[0]]]]}

/-- The `ERAJetStreamData` object wrapping `dsZeroWind`. -/
def jsZeroWind : ERAJetStreamData :=
  { data := dsZeroWind, lon := [], lat := [], windspeed := [] }

/-- A two-timestep dataset with empty grids, exercising the driver loop. -/
def dsTwoSteps : Dataset :=
  { level := [250]
    longitude := [20]
    latitude := [30]
    time := [7, 9]
    u := [[[]], [[]]]
    v := [[[]], [[]]]}

/-- The `ERAJetStreamData` object wrapping `dsTwoSteps`. -/
def jsTwoSteps : ERAJetStreamData :=
  { data := dsTwoSteps, lon := [], lat := [], windspeed := [] }

/-- A concrete date-format stand-in used by driver witnesses. -/
def fmtDemo (t : Int) : String := "2014-01-0" ++ toString t

/-- Driver arguments used by the exit-code witness. -/
def argsDemo : Args :=
  { listlevels := false, outdir := "outdir", level := 250, datafile := "file.nc" }

/-- A filesystem in which the output path is absent and everything else is a
directory. -/
def fsAbsent (p : String) : PathKind :=
  if p = "outdir" then PathKind.absent else PathKind.directory

/-! ### Helper lemmas: level lookup -/

theorem levelIndex?_eq_some_iff (levels : List Int) (lv : Int) (i : Nat) :
    levelIndex? levels lv = some i ↔
      (levels[i]? = some lv ∧ ∀ j, j < i → levels[j]? ≠ some lv) := by
  induction levels generalizing i with
  | nil => simp [levelIndex?]
  | cons m rest ih =>
    by_cases hm : m = lv
    · subst hm
      simp only [levelIndex?, if_pos rfl]
      constructor
      · rintro h
        obtain rfl : i = 0 := by simpa using h.symm
        simp
      · rintro ⟨hget, hfirst⟩
        rcases i with _ | i
        · rfl
        · exact absurd (by simp) (hfirst 0 (Nat.succ_pos i))
    · simp only [levelIndex?, if_neg hm]
      rcases i with _ | i
      · simp [Option.map_eq_some', hm]
      · constructor
        · intro h
          obtain ⟨i', hi', hii⟩ := Option.map_eq_some'.mp h
          have hi2 : levelIndex? rest lv = some i := by
            have hieq : i' = i := by omega
            exact hieq ▸ hi'
          obtain ⟨h1, h2⟩ := (ih i).mp hi2
          refine ⟨by simpa using h1, ?_⟩
          rintro (_ | j) hj
          · simpa using hm
          · exact fun hc => h2 j (by omega) (by simpa using hc)
        · rintro ⟨h1, h2⟩
          have : levelIndex? rest lv = some i := by
            refine (ih i).mpr ⟨by simpa using h1, ?_⟩
            intro j hj hc
            exact h2 (j + 1) (by omega) (by simpa using hc)
          simp [this]

theorem levelIndex?_eq_none_iff (levels : List Int) (lv : Int) :
    levelIndex? levels lv = none ↔ lv ∉ levels := by
  induction levels with
  | nil => simp [levelIndex?]
  | cons m rest ih =>
    by_cases hm : m = lv
    · subst hm; simp [levelIndex?]
    · simp [levelIndex?, if_neg hm, Option.map_eq_none', ih, hm, Ne.symm hm]

/-! ### Helper lemmas: the magnitude grid -/

theorem windRow_length (s : ℚ) (a b : List ℚ) :
    (windRow s a b).length = min a.length b.length := by
  induction a generalizing b with
  | nil => cases b <;> simp [windRow]
  | cons x as ih =>
    cases b with
    | nil => simp [windRow]
    | cons y bs => simp [windRow, ih, Nat.succ_min_succ]

theorem windRow_getElem? (s : ℚ) (a b : List ℚ) (k : Nat)
    (hka : k < a.length) (hkb : k < b.length) :
    (windRow s a b)[k]? =
      some ((s : ℝ) * Real.sqrt (((a.getD k 0 : ℚ) : ℝ) ^ 2 + ((b.getD k 0 : ℚ) : ℝ) ^ 2)) := by
  induction a generalizing b k with
  | nil => simp at hka
  | cons x as ih =>
    cases b with
    | nil => simp at hkb
    | cons y bs =>
      rcases k with _ | k
      · simp [windRow]
      · simpa [windRow] using ih bs k (by simpa using hka) (by simpa using hkb)

theorem windRow_mem_eq (s : ℚ) (a b : List ℚ) (x : ℝ) (hx : x ∈ windRow s a b) :
    ∃ p q : ℚ, x = (s : ℝ) * Real.sqrt ((p : ℝ) ^ 2 + (q : ℝ) ^ 2) := by
  induction a generalizing b with
  | nil => simp [windRow] at hx
  | cons u as ih =>
    cases b with
    | nil => simp [windRow] at hx
    | cons w bs =>
      rcases (List.mem_cons).mp hx with h | h
      · exact ⟨u, w, h⟩
      · exact ih bs h

theorem windGrid_length (s : ℚ) (us vs : Grid) :
    (windGrid s us vs).length = min us.length vs.length := by
  induction us generalizing vs with
  | nil => cases vs <;> simp [windGrid]
  | cons u us ih =>
    cases vs with
    | nil => simp [windGrid]
    | cons v vs => simp [windGrid, ih, Nat.succ_min_succ]

theorem windGrid_getElem? (s : ℚ) (us vs : Grid) (r : Nat)
    (hru : r < us.length) (hrv : r < vs.length) :
    (windGrid s us vs)[r]? = some (windRow s (us.getD r []) (vs.getD r [])) := by
  induction us generalizing vs r with
  | nil => simp at hru
  | cons u us ih =>
    cases vs with
    | nil => simp at hrv
    | cons v vs =>
      rcases r with _ | r
      · simp [windGrid]
      · simpa [windGrid] using ih vs r (by simpa using hru) (by simpa using hrv)

theorem windGrid_mem_eq (s : ℚ) (us vs : Grid) (row : List ℝ) (x : ℝ)
    (hrow : row ∈ windGrid s us vs) (hx : x ∈ row) :
    ∃ p q : ℚ, x = (s : ℝ) * Real.sqrt ((p : ℝ) ^ 2 + (q : ℝ) ^ 2) := by
  induction us generalizing vs with
  | nil => simp [windGrid] at hrow
  | cons u us ih =>
    cases vs with
    | nil => simp [windGrid] at hrow
    | cons v vs =>
      rcases (List.mem_cons).mp hrow with h | h
      · exact windRow_mem_eq s u v x (h ▸ hx)
      · exact ih vs h

/-! ### Helper lemmas: column rotation and the longitude cut -/

theorem rotateCols_length (i0 : Nat) (row : List α) :
    (rotateCols i0 row).length = row.length := by
  simp [rotateCols]
  omega

theorem rotateCols_getElem? (i0 : Nat) (row : List α) (n k : Nat)
    (hlen : row.length = n) (hi0 : i0 ≤ n) (hk : k < n) :
    (rotateCols i0 row)[k]? = row[(i0 + k) % n]? := by
  have hdl : (row.drop i0).length = n - i0 := by simp [hlen]
  by_cases hcase : k < n - i0
  · rw [rotateCols, List.getElem?_append_left (by omega), List.getElem?_drop]
    have : (i0 + k) % n = i0 + k := Nat.mod_eq_of_lt (by omega)
    rw [this]
  · rw [rotateCols, List.getElem?_append_right (by omega), hdl,
      List.getElem?_take_of_lt (by omega)]
    have h1 : (i0 + k) % n = (i0 + k - n) % n := Nat.mod_eq_sub_mod (by omega)
    have h2 : (i0 + k - n) % n = i0 + k - n := Nat.mod_eq_of_lt (by omega)
    have h3 : k - (n - i0) = i0 + k - n := by omega
    rw [h1, h2, h3]

theorem rotateCols_mem (i0 : Nat) (row : List α) (x : α) (hx : x ∈ rotateCols i0 row) :
    x ∈ row := by
  rcases List.mem_append.mp hx with h | h
  · exact List.mem_of_mem_drop h
  · exact List.mem_of_mem_take h

theorem rotateCols_rotateCols (i0 n : Nat) (row : List α)
    (hlen : row.length = n) (hi0 : i0 ≤ n) :
    rotateCols (n - i0) (rotateCols i0 row) = row := by
  have hdl : (row.drop i0).length = n - i0 := by simp [hlen]
  unfold rotateCols
  rw [← hdl, List.drop_left, List.take_left, List.take_append_drop]

theorem shiftCut_le_length (lon : List ℚ) : shiftCut lon ≤ lon.length := by
  induction lon with
  | nil => simp [shiftCut]
  | cons x xs ih =>
    by_cases h : (180 : ℚ) ≤ x
    · simp [shiftCut, if_pos h]
    · simp only [shiftCut, if_neg h, List.length_cons]
      omega

theorem getElem?_lt_shiftCut (lon : List ℚ) (j : Nat) (hj : j < shiftCut lon) :
    ∃ x, lon[j]? = some x ∧ x < 180 := by
  induction lon generalizing j with
  | nil => simp [shiftCut] at hj
  | cons y xs ih =>
    by_cases h : (180 : ℚ) ≤ y
    · simp [shiftCut, if_pos h] at hj
    · rcases j with _ | j
      · exact ⟨y, by simp, by linarith⟩
      · simp only [shiftCut, if_neg h] at hj
        simpa using ih j (by omega)

theorem shiftCut_getElem? (lon : List ℚ) (h : shiftCut lon < lon.length) :
    ∃ x, lon[shiftCut lon]? = some x ∧ 180 ≤ x := by
  induction lon with
  | nil => simp at h
  | cons y xs ih =>
    by_cases hy : (180 : ℚ) ≤ y
    · exact ⟨y, by simp [shiftCut, if_pos hy], hy⟩
    · simp only [shiftCut, if_neg hy] at h ⊢
      simpa using ih (by simpa using h)

theorem unshiftCut_append (A B : List ℚ) (hA : ∀ x ∈ A, x < 0) (hB : ∀ x ∈ B, 0 ≤ x) :
    unshiftCut (A ++ B) = A.length := by
  induction A with
  | nil =>
    cases B with
    | nil => simp [unshiftCut]
    | cons b bs => simp [unshiftCut, if_pos (hB b (by simp))]
  | cons a as ih =>
    have ha : ¬ (0 : ℚ) ≤ a := by
      have := hA a (by simp)
      linarith
    simp only [List.cons_append, unshiftCut, if_neg ha, List.length_cons]
    have := ih (fun x hx => hA x (by simp [hx]))
    simp only [List.append_eq] at this ⊢
    omega

/-! ### Helper lemmas: the re-centering round trip -/

theorem unshiftCut_shiftLon (lon : List ℚ) (hrange : ∀ x ∈ lon, 0 ≤ x ∧ x < 360) :
    unshiftCut (shiftLon lon) = lon.length - shiftCut lon := by
  unfold shiftLon
  rw [unshiftCut_append]
  · simp
  · intro x hx
    obtain ⟨y, hy, rfl⟩ := List.mem_map.mp hx
    have := (hrange y (List.mem_of_mem_drop hy)).2
    linarith
  · intro x hx
    exact (hrange x (List.mem_of_mem_take hx)).1

theorem unshiftLon_shiftLon (lon : List ℚ) (hrange : ∀ x ∈ lon, 0 ≤ x ∧ x < 360) :
    unshiftLon (shiftLon lon) = lon := by
  have hcut := unshiftCut_shiftLon lon hrange
  have hdl : ((lon.drop (shiftCut lon)).map (fun x => x - 360)).length =
      lon.length - shiftCut lon := by simp
  have hS : shiftLon lon =
      (lon.drop (shiftCut lon)).map (fun x => x - 360) ++ lon.take (shiftCut lon) := rfl
  unfold unshiftLon
  rw [hcut, hS, ← hdl, List.drop_left, List.take_left, List.map_map]
  have hid : (lon.drop (shiftCut lon)).map ((fun x => x + 360) ∘ (fun x => x - 360)) =
      lon.drop (shiftCut lon) := by
    have hfun : ∀ a ∈ lon.drop (shiftCut lon),
        ((fun x => x + 360) ∘ (fun x => x - 360)) a = id a := fun a _ => by simp
    rw [List.map_congr_left hfun, List.map_id]
  rw [hid, List.take_append_drop]

theorem unshiftGrid_shiftGrid180 (grid : List (List α)) (lon : List ℚ)
    (hrange : ∀ x ∈ lon, 0 ≤ x ∧ x < 360)
    (hrows : ∀ row ∈ grid, row.length = lon.length) :
    unshiftGrid (shiftGrid180 grid lon).1 (shiftGrid180 grid lon).2 = (grid, lon) := by
  unfold unshiftGrid shiftGrid180
  simp only [Prod.mk.injEq]
  constructor
  · rw [unshiftCut_shiftLon lon hrange, List.map_map]
    rw [List.map_congr_left (fun row hrow => ?_), List.map_id]
    exact rotateCols_rotateCols (shiftCut lon) lon.length row (hrows row hrow)
      (shiftCut_le_length lon)
  · exact unshiftLon_shiftLon lon hrange

/-! ### Helper lemmas: properties of the re-centered axis -/

theorem le_of_drop_shiftCut (lon : List ℚ) (hsort : lon.Pairwise (· < ·))
    (y : ℚ) (hy : y ∈ lon.drop (shiftCut lon)) : 180 ≤ y := by
  obtain ⟨j, hj, hjy⟩ := List.mem_iff_getElem.mp hy
  have hjlen : shiftCut lon + j < lon.length := by
    have := List.length_drop (shiftCut lon) lon
    omega
  have hdj : lon[shiftCut lon + j]? = some y := by
    rw [← List.getElem?_drop]
    exact hjy ▸ List.getElem?_eq_getElem hj
  have hi0 : shiftCut lon < lon.length := by omega
  obtain ⟨x, hx, hx180⟩ := shiftCut_getElem? lon hi0
  rcases Nat.eq_zero_or_pos j with rfl | hjpos
  · have : x = y := by
      rw [Nat.add_zero] at hdj
      exact Option.some.inj (hx ▸ hdj)
    linarith
  · have hlt : lon[shiftCut lon] < lon[shiftCut lon + j] :=
      List.pairwise_iff_getElem.mp hsort (shiftCut lon) (shiftCut lon + j)
        hi0 hjlen (by omega)
    have hx' : lon[shiftCut lon] = x := by
      have := List.getElem?_eq_getElem hi0
      exact Option.some.inj (this ▸ hx)
    have hy' : lon[shiftCut lon + j] = y := by
      have := List.getElem?_eq_getElem hjlen
      exact Option.some.inj (this ▸ hdj)
    rw [hx', hy'] at hlt
    linarith

theorem lt_of_take_shiftCut (lon : List ℚ) (x : ℚ)
    (hx : x ∈ lon.take (shiftCut lon)) : x < 180 := by
  obtain ⟨j, hj, hjx⟩ := List.mem_iff_getElem.mp hx
  have hjcut : j < shiftCut lon := by
    have := List.length_take (shiftCut lon) lon
    omega
  obtain ⟨x', hx', hx180⟩ := getElem?_lt_shiftCut lon j hjcut
  have : lon[j]? = some x := by
    rw [← List.getElem?_take_of_lt hjcut]
    exact hjx ▸ List.getElem?_eq_getElem hj
  have : x = x' := Option.some.inj (this ▸ hx')
  linarith [this ▸ hx180]

theorem shiftLon_range (lon : List ℚ) (hsort : lon.Pairwise (· < ·))
    (hrange : ∀ x ∈ lon, 0 ≤ x ∧ x < 360) :
    ∀ x ∈ shiftLon lon, -180 ≤ x ∧ x < 180 := by
  intro x hx
  rcases List.mem_append.mp hx with h | h
  · obtain ⟨y, hy, rfl⟩ := List.mem_map.mp h
    have h180 := le_of_drop_shiftCut lon hsort y hy
    have h360 := (hrange y (List.mem_of_mem_drop hy)).2
    constructor <;> linarith
  · have h180 := lt_of_take_shiftCut lon x h
    have h0 := (hrange x (List.mem_of_mem_take h)).1
    constructor <;> linarith

theorem shiftLon_pairwise (lon : List ℚ) (hsort : lon.Pairwise (· < ·))
    (hrange : ∀ x ∈ lon, 0 ≤ x ∧ x < 360) :
    (shiftLon lon).Pairwise (· < ·) := by
  unfold shiftLon
  rw [List.pairwise_append]
  refine ⟨?_, hsort.sublist (List.take_sublist _ _), ?_⟩
  · rw [List.pairwise_map]
    exact (hsort.sublist (List.drop_sublist _ _)).imp (fun h => by linarith)
  · intro a ha b hb
    obtain ⟨y, hy, rfl⟩ := List.mem_map.mp ha
    have h360 := (hrange y (List.mem_of_mem_drop hy)).2
    have h0 := (hrange b (List.mem_of_mem_take hb)).1
    linarith

theorem shiftLon_getElem? (lon : List ℚ) (hsort : lon.Pairwise (· < ·))
    (k : Nat) (hk : k < lon.length) :
    (shiftLon lon)[k]? =
      some (wrapLon (lon.getD ((shiftCut lon + k) % lon.length) 0)) := by
  have hi0 : shiftCut lon ≤ lon.length := shiftCut_le_length lon
  have hdl : ((lon.drop (shiftCut lon)).map (fun x => x - 360)).length =
      lon.length - shiftCut lon := by simp
  by_cases hcase : k < lon.length - shiftCut lon
  · have hmod : (shiftCut lon + k) % lon.length = shiftCut lon + k :=
      Nat.mod_eq_of_lt (by omega)
    have hidx : shiftCut lon + k < lon.length := by omega
    have hval : lon[shiftCut lon + k]? = some lon[shiftCut lon + k] :=
      List.getElem?_eq_getElem hidx
    have h180 : 180 ≤ lon[shiftCut lon + k] := by
      apply le_of_drop_shiftCut lon hsort
      apply List.getElem?_mem
      rw [List.getElem?_drop]
      exact hval
    rw [shiftLon, List.getElem?_append_left (by omega), List.getElem?_map,
      List.getElem?_drop, hval, hmod]
    simp only [Option.map_some']
    rw [List.getD_eq_getElem?_getD, hval, Option.getD_some, wrapLon, if_pos h180]
  · have hn : 0 < lon.length := by omega
    have hj : k - (lon.length - shiftCut lon) < shiftCut lon := by omega
    have hmod : (shiftCut lon + k) % lon.length = k - (lon.length - shiftCut lon) := by
      have h1 : (shiftCut lon + k) % lon.length =
          (shiftCut lon + k - lon.length) % lon.length :=
        Nat.mod_eq_sub_mod (by omega)
      have h2 : (shiftCut lon + k - lon.length) % lon.length =
          shiftCut lon + k - lon.length := Nat.mod_eq_of_lt (by omega)
      omega
    obtain ⟨x, hx, hx180⟩ := getElem?_lt_shiftCut lon (k - (lon.length - shiftCut lon)) hj
    rw [shiftLon, List.getElem?_append_right (by omega), hdl,
      List.getElem?_take_of_lt hj, hx, hmod, List.getD_eq_getElem?_getD, hx,
      Option.getD_some, wrapLon, if_neg (by linarith)]

/-! ### Helper lemmas: evaluating `calc_windspeed` -/

theorem cell_map_rotateCols (i0 n : Nat) (grid : List (List α)) (r k : Nat)
    (hrows : ∀ row ∈ grid, row.length = n) (hi0 : i0 ≤ n) (hk : k < n) :
    cell (grid.map (rotateCols i0)) r k = cell grid r ((i0 + k) % n) := by
  unfold cell
  rw [List.getElem?_map]
  cases hgr : grid[r]? with
  | none => simp
  | some row =>
    simp only [Option.map_some']
    exact rotateCols_getElem? i0 row n k (hrows row (List.getElem?_mem hgr)) hi0 hk

theorem windGrid_mem_row (s : ℚ) (us vs : Grid) (row : List ℝ)
    (h : row ∈ windGrid s us vs) :
    ∃ p q, p ∈ us ∧ q ∈ vs ∧ row = windRow s p q := by
  induction us generalizing vs with
  | nil => simp [windGrid] at h
  | cons u us ih =>
    cases vs with
    | nil => simp [windGrid] at h
    | cons v vs =>
      rcases (List.mem_cons).mp h with h | h
      · exact ⟨u, v, by simp, by simp, h⟩
      · obtain ⟨p, q, hp, hq, hrow⟩ := ih vs h
        exact ⟨p, q, by simp [hp], by simp [hq], hrow⟩

theorem effectiveSensitivity_of_ne (level : Int) (s : ℚ) (hs : s ≠ 0) :
    effectiveSensitivity level s = s := by
  simp [effectiveSensitivity, hs]

theorem calc_windspeed_ok (js : ERAJetStreamData) (idx : Nat) (level : Int) (s : ℚ)
    (li : Nat) (us vs : Grid)
    (hfind : findLevelIndex js.data.level level = Except.ok li)
    (hu : (js.data.u[idx]?).bind (fun lv => lv[li]?) = some us)
    (hv : (js.data.v[idx]?).bind (fun lv => lv[li]?) = some vs) :
    calc_windspeed js idx level s = Except.ok
      { data := js.data
        lon := shiftLon js.data.longitude
        lat := js.data.latitude
        windspeed := (windGrid (effectiveSensitivity level s) us vs).map
          (rotateCols (shiftCut js.data.longitude)) } := by
  unfold calc_windspeed
  rw [hfind]
  simp only [hu, hv, shiftGrid180]

theorem windGrid_rows_length (s : ℚ) (us vs : Grid) (n : Nat)
    (hrowu : ∀ row ∈ us, row.length = n) (hrowv : ∀ row ∈ vs, row.length = n) :
    ∀ row ∈ windGrid s us vs, row.length = n := by
  intro row hrow
  obtain ⟨p, q, hp, hq, rfl⟩ := windGrid_mem_row s us vs row hrow
  rw [windRow_length, hrowu p hp, hrowv q hq, Nat.min_self]

theorem calc_windspeed_cell_formula (js : ERAJetStreamData) (level : Int) (s : ℚ)
    (us vs : Grid)
    (hlen : us.length = vs.length)
    (hrowu : ∀ row ∈ us, row.length = js.data.longitude.length)
    (hrowv : ∀ row ∈ vs, row.length = js.data.longitude.length)
    (hs : s ≠ 0)
    (r k : Nat) (hr : r < us.length) (hk : k < js.data.longitude.length) :
    cell ((windGrid (effectiveSensitivity level s) us vs).map
        (rotateCols (shiftCut js.data.longitude))) r k =
      some ((s : ℝ) * Real.sqrt
        ((cellD us r ((shiftCut js.data.longitude + k) % js.data.longitude.length) : ℝ) ^ 2 +
         (cellD vs r ((shiftCut js.data.longitude + k) % js.data.longitude.length) : ℝ) ^ 2)) := by
  have hrows := windGrid_rows_length (effectiveSensitivity level s) us vs
    js.data.longitude.length hrowu hrowv
  rw [cell_map_rotateCols (shiftCut js.data.longitude) js.data.longitude.length
    (windGrid (effectiveSensitivity level s) us vs) r k hrows
    (shiftCut_le_length js.data.longitude) hk]
  have hkmod : (shiftCut js.data.longitude + k) % js.data.longitude.length <
      js.data.longitude.length := Nat.mod_lt _ (by omega)
  have husr : us.getD r [] ∈ us := by
    rw [List.getD_eq_getElem us [] hr]
    exact List.getElem_mem hr
  have hvsr : vs.getD r [] ∈ vs := by
    rw [List.getD_eq_getElem vs [] (hlen ▸ hr)]
    exact List.getElem_mem (hlen ▸ hr)
  simp only [cell, windGrid_getElem? (effectiveSensitivity level s) us vs r hr (hlen ▸ hr)]
  rw [windRow_getElem? (effectiveSensitivity level s) (us.getD r []) (vs.getD r [])
    ((shiftCut js.data.longitude + k) % js.data.longitude.length)
    (by rw [hrowu (us.getD r []) husr]; exact hkmod)
    (by rw [hrowv (vs.getD r []) hvsr]; exact hkmod)]
  rw [effectiveSensitivity_of_ne level s hs]
  rfl

/-! ### Helper lemmas: the driver loop -/

theorem runLoopFrom_ok (fmt : Int → String) (outdir : String) (level : Int)
    (d : Dataset) (li : Nat)
    (hfind : findLevelIndex d.level level = Except.ok li) :
    ∀ (ts : List Int) (i : Nat) (js : ERAJetStreamData), js.data = d →
      (∀ k, k < ts.length →
        ((d.u[i + k]?).bind (fun lv => lv[li]?)).isSome ∧
        ((d.v[i + k]?).bind (fun lv => lv[li]?)).isSome) →
      runLoopFrom fmt outdir level js i ts =
        Except.ok (ts.flatMap (fun t =>
          [Event.saveFig (figName outdir (fmt t) level),
           Event.printLine (figName outdir (fmt t) level)])) := by
  intro ts
  induction ts with
  | nil => intro i js hdata hslices; simp [runLoopFrom]
  | cons t ts ih =>
    intro i js hdata hslices
    obtain ⟨hu0, hv0⟩ := hslices 0 (by simp)
    rw [Nat.add_zero] at hu0 hv0
    obtain ⟨us, hus⟩ := Option.isSome_iff_exists.mp hu0
    obtain ⟨vs, hvs⟩ := Option.isSome_iff_exists.mp hv0
    have hcalc := calc_windspeed_ok js i level 0 li us vs
      (by rw [hdata]; exact hfind) (by rw [hdata]; exact hus) (by rw [hdata]; exact hvs)
    have hrec := ih (i + 1)
      { data := js.data
        lon := shiftLon js.data.longitude
        lat := js.data.latitude
        windspeed := (windGrid (effectiveSensitivity level 0) us vs).map
          (rotateCols (shiftCut js.data.longitude)) }
      hdata
      (fun k hk => by
        have := hslices (k + 1) (by simpa using Nat.succ_lt_succ hk)
        rw [show i + (k + 1) = i + 1 + k by omega] at this
        exact this)
    simp only [runLoopFrom, hcalc, hrec, List.flatMap_cons]
    rfl

theorem runLoop_ok (fmt : Int → String) (outdir : String) (level : Int)
    (js : ERAJetStreamData) (li : Nat)
    (hfind : findLevelIndex js.data.level level = Except.ok li)
    (hslices : ∀ i, i < js.data.time.length →
      ((js.data.u[i]?).bind (fun lv => lv[li]?)).isSome ∧
      ((js.data.v[i]?).bind (fun lv => lv[li]?)).isSome) :
    runLoop fmt outdir level js =
      Except.ok (js.data.time.flatMap (fun t =>
        [Event.saveFig (figName outdir (fmt t) level),
         Event.printLine (figName outdir (fmt t) level)])) := by
  exact runLoopFrom_ok fmt outdir level js.data li hfind js.data.time 0 js rfl
    (fun k hk => by simpa using hslices k hk)

/-! ### The claims -/

/-- Claim C1: for every valid time index and every level present in the level axis,
with a positive sensitivity, the windspeed grid computed by `calc_windspeed`
satisfies, cell for cell, `windspeed = sensitivity * sqrt(u^2 + v^2)` for the
corresponding input cells of the selected `u`/`v` slices (the correspondence
being the column rotation of the longitude re-centering), and every cell value
is non-negative. -/
theorem c1_windspeed_elementwise (js : ERAJetStreamData) (idx : Nat) (level : Int)
    (s : ℚ) (li : Nat) (us vs : Grid)
    (hfind : findLevelIndex js.data.level level = Except.ok li)
    (hu : (js.data.u[idx]?).bind (fun lv => lv[li]?) = some us)
    (hv : (js.data.v[idx]?).bind (fun lv => lv[li]?) = some vs)
    (hlen : us.length = vs.length)
    (hrowu : ∀ row ∈ us, row.length = js.data.longitude.length)
    (hrowv : ∀ row ∈ vs, row.length = js.data.longitude.length)
    (hs : 0 < s) :
    ∃ out, calc_windspeed js idx level s = Except.ok out ∧
      (∀ r k, r < us.length → k < js.data.longitude.length →
        cell out.windspeed r k =
          some ((s : ℝ) * Real.sqrt
            ((cellD us r ((shiftCut js.data.longitude + k) % js.data.longitude.length) : ℝ) ^ 2 +
             (cellD vs r ((shiftCut js.data.longitude + k) % js.data.longitude.length) : ℝ) ^ 2))) ∧
      (∀ row ∈ out.windspeed, ∀ x ∈ row, 0 ≤ x) := by
  refine ⟨_, calc_windspeed_ok js idx level s li us vs hfind hu hv, ?_, ?_⟩
  · intro r k hr hk
    exact calc_windspeed_cell_formula js level s us vs hlen hrowu hrowv (ne_of_gt hs) r k hr hk
  · intro row hrow x hx
    obtain ⟨row0, hrow0, rfl⟩ := List.mem_map.mp hrow
    have hx0 := rotateCols_mem _ row0 x hx
    obtain ⟨p, q, rfl⟩ := windGrid_mem_eq _ us vs row0 _ hrow0 hx0
    have hs' : (0 : ℝ) ≤ ((effectiveSensitivity level s : ℚ) : ℝ) := by
      rw [effectiveSensitivity_of_ne level s (ne_of_gt hs)]
      exact_mod_cast le_of_lt hs
    exact mul_nonneg hs' (Real.sqrt_nonneg _)

/-- Witness for C1: the 3-4-5 dataset with sensitivity 1 yields the value 5 in
both cells, and the grid is non-negative. -/
theorem c1_windspeed_elementwise_witness :
    ∃ out, calc_windspeed jsTriangle 0 250 1 = Except.ok out ∧
      cell out.windspeed 0 0 = some 5 ∧
      (∀ row ∈ out.windspeed, ∀ x ∈ row, 0 ≤ x) := by
  obtain ⟨out, hok, hcells, hpos⟩ := c1_windspeed_elementwise jsTriangle 0 250 1 0
    [[3, 3]] [[4, 4]] rfl (by decide) (by decide) (by decide) (by decide)
    (by decide) (by decide)
  refine ⟨out, hok, ?_, hpos⟩
  have h := hcells 0 0 (by decide) (by decide)
  have hcu : cellD [[3, 3]] 0 ((shiftCut jsTriangle.data.longitude + 0) %
      jsTriangle.data.longitude.length) = 3 := by decide
  have hcv : cellD [[4, 4]] 0 ((shiftCut jsTriangle.data.longitude + 0) %
      jsTriangle.data.longitude.length) = 4 := by decide
  rw [h, hcu, hcv]
  have h25 : ((3 : ℚ) : ℝ) ^ 2 + ((4 : ℚ) : ℝ) ^ 2 = 5 ^ 2 := by norm_num
  rw [h25, Real.sqrt_sq (by norm_num : (0 : ℝ) ≤ 5)]
  norm_num

/-- Claim C2: the level lookup returns the unique matching index when the target
occurs at exactly one position, and for an absent target it fails with an error
whose message contains the requested level and the hint to list the available
levels (the `-L` flag). -/
theorem c2_find_level (levels : List Int) (target : Int) :
    (∀ i, levels[i]? = some target →
      (∀ j, j < levels.length → levels[j]? = some target → j = i) →
      findLevelIndex levels target = Except.ok i) ∧
    (target ∉ levels →
      ∃ msg, findLevelIndex levels target = Except.error msg ∧
        (∃ a b, msg = a ++ toString target ++ b) ∧
        (∃ c d, msg = c ++ "-L" ++ d)) := by
  constructor
  · intro i hi huniq
    have hlt : i < levels.length := by
      by_contra hge
      rw [List.getElem?_eq_none (by omega)] at hi
      exact Option.noConfusion hi
    have hsome : levelIndex? levels target = some i := by
      rw [levelIndex?_eq_some_iff]
      refine ⟨hi, fun j hj hc => ?_⟩
      have := huniq j (by omega) hc
      omega
    simp [findLevelIndex, hsome]
  · intro hmem
    have hnone : levelIndex? levels target = none :=
      (levelIndex?_eq_none_iff levels target).mpr hmem
    refine ⟨levelErrorMsg target, by simp [findLevelIndex, hnone],
      ⟨"No ", " hPa level (maybe check with -L?)", rfl⟩,
      ⟨"No " ++ toString target ++ " hPa level (maybe check with ", "?)", ?_⟩⟩
    have hsuffix : " hPa level (maybe check with -L?)" =
        " hPa level (maybe check with " ++ "-L" ++ "?)" := rfl
    unfold levelErrorMsg
    rw [hsuffix]
    simp [String.append_assoc]

/-- Witness for C2: in the axis `[1000, 850, 250]`, level 850 is found at its
unique index 1, and level 500 produces the error message containing 500
and the `-L` hint. -/
theorem c2_find_level_witness :
    findLevelIndex [1000, 850, 250] 850 = Except.ok 1 ∧
    (∃ msg, findLevelIndex [1000, 850, 250] 500 = Except.error msg ∧
      (∃ a b, msg = a ++ toString (500 : Int) ++ b) ∧
      (∃ c d, msg = c ++ "-L" ++ d)) :=
  ⟨(c2_find_level [1000, 850, 250] 850).1 1 (by decide)
      (fun j hj hc => by
        rcases j with _ | _ | _ | j
        · exact absurd hc (by decide)
        · rfl
        · exact absurd hc (by decide)
        · simp only [List.length_cons, List.length_nil] at hj
          omega),
   (c2_find_level [1000, 850, 250] 500).2 (by decide)⟩

/-- Claim C3: the default sensitivity is 3.5 at level 250 and 7.5 at every other
level; it is applied exactly when the caller's sensitivity is 0 (the unset
default); and with sensitivity unset at level 250, `calc_windspeed` produces
the same result as an explicit call with sensitivity 3.5. -/
theorem c3_default_sensitivity :
    defaultSensitivity 250 = 3.5 ∧
    (∀ level : Int, level ≠ 250 → defaultSensitivity level = 7.5) ∧
    (∀ (level : Int) (s : ℚ), s ≠ 0 → effectiveSensitivity level s = s) ∧
    (∀ level : Int, effectiveSensitivity level 0 = defaultSensitivity level) ∧
    (∀ (js : ERAJetStreamData) (idx : Nat),
      calc_windspeed js idx 250 0 = calc_windspeed js idx 250 3.5) := by
  refine ⟨rfl, fun level h => by simp [defaultSensitivity, h],
    fun level s h => effectiveSensitivity_of_ne level s h,
    fun level => by simp [effectiveSensitivity],
    fun js idx => ?_⟩
  have heff : effectiveSensitivity 250 (0 : ℚ) = effectiveSensitivity 250 3.5 := by
    norm_num [effectiveSensitivity, defaultSensitivity]
  unfold calc_windspeed
  rw [heff]

/-- Witness for C3: the default at 500 hPa is 7.5, and an explicit nonzero
sensitivity of 2 is kept unchanged. -/
theorem c3_default_sensitivity_witness :
    defaultSensitivity 500 = 7.5 ∧ effectiveSensitivity 250 2 = 2 :=
  ⟨c3_default_sensitivity.2.1 500 (by decide),
   c3_default_sensitivity.2.2.1 250 2 (by decide)⟩

/-- Claim C9: when the target level occurs at more than one position of the
level axis, the lookup used by `calc_windspeed` selects the first
(smallest-index) occurrence: the scan stops at the first exact match. -/
theorem c9_first_match (levels : List Int) (target : Int) (i : Nat)
    (hi : levels[i]? = some target)
    (hfirst : ∀ j, j < i → levels[j]? ≠ some target) :
    findLevelIndex levels target = Except.ok i := by
  have hsome : levelIndex? levels target = some i :=
    (levelIndex?_eq_some_iff levels target i).mpr ⟨hi, hfirst⟩
  simp [findLevelIndex, hsome]

/-- Witness for C9: with the duplicated axis `[1000, 250, 250]`, the lookup of
250 returns index 1, the first of the two occurrences. -/
theorem c9_first_match_witness :
    findLevelIndex [1000, 250, 250] 250 = Except.ok 1 :=
  c9_first_match [1000, 250, 250] 250 1 (by decide)
    (fun j hj => by
      obtain rfl : j = 0 := by omega
      decide)

/-- Claim C4: for a source longitude axis ordered (strictly increasing) within
[0, 360), the re-centered axis lies in [-180, 180), is strictly increasing,
and the windspeed grid's columns are permuted by exactly the same rotation as
the longitude values, preserving cell-to-coordinate correspondence. -/
theorem c4_recentered_axis (lon : List ℚ) (grid : List (List α))
    (hsort : lon.Pairwise (· < ·))
    (hrange : ∀ x ∈ lon, 0 ≤ x ∧ x < 360)
    (hrows : ∀ row ∈ grid, row.length = lon.length) :
    (∀ x ∈ (shiftGrid180 grid lon).2, -180 ≤ x ∧ x < 180) ∧
    ((shiftGrid180 grid lon).2).Pairwise (· < ·) ∧
    (∀ k, k < lon.length →
      ((shiftGrid180 grid lon).2)[k]? =
        some (wrapLon (lon.getD ((shiftCut lon + k) % lon.length) 0))) ∧
    (∀ r k, k < lon.length →
      cell (shiftGrid180 grid lon).1 r k =
        cell grid r ((shiftCut lon + k) % lon.length)) :=
  ⟨shiftLon_range lon hsort hrange, shiftLon_pairwise lon hsort hrange,
    fun k hk => shiftLon_getElem? lon hsort k hk,
    fun r k hk => cell_map_rotateCols (shiftCut lon) lon.length grid r k hrows
      (shiftCut_le_length lon) hk⟩

/-- Witness for C4 on the axis `[0, 90, 180, 270]` with a single-row grid. -/
theorem c4_recentered_axis_witness :
    (∀ x ∈ (shiftGrid180 ([[1, 2, 3, 4]] : List (List ℚ)) [0, 90, 180, 270]).2,
        -180 ≤ x ∧ x < 180) ∧
    ((shiftGrid180 ([[1, 2, 3, 4]] : List (List ℚ)) [0, 90, 180, 270]).2).Pairwise (· < ·) ∧
    (∀ k, k < ([0, 90, 180, 270] : List ℚ).length →
      ((shiftGrid180 ([[1, 2, 3, 4]] : List (List ℚ)) [0, 90, 180, 270]).2)[k]? =
        some (wrapLon (([0, 90, 180, 270] : List ℚ).getD
          ((shiftCut [0, 90, 180, 270] + k) % ([0, 90, 180, 270] : List ℚ).length) 0))) ∧
    (∀ r k, k < ([0, 90, 180, 270] : List ℚ).length →
      cell (shiftGrid180 ([[1, 2, 3, 4]] : List (List ℚ)) [0, 90, 180, 270]).1 r k =
        cell ([[1, 2, 3, 4]] : List (List ℚ)) r
          ((shiftCut [0, 90, 180, 270] + k) % ([0, 90, 180, 270] : List ℚ).length)) :=
  c4_recentered_axis [0, 90, 180, 270] [[1, 2, 3, 4]] (by decide) (by decide) (by decide)

/-- Claim C5: longitude re-centering is a bijection: re-centering and then the
inverse shift back to the [0, 360) convention reproduces the original longitude
sequence and the original grid column order exactly. -/
theorem c5_recentering_roundtrip (lon : List ℚ) (grid : List (List α))
    (hrange : ∀ x ∈ lon, 0 ≤ x ∧ x < 360)
    (hrows : ∀ row ∈ grid, row.length = lon.length) :
    unshiftGrid (shiftGrid180 grid lon).1 (shiftGrid180 grid lon).2 = (grid, lon) :=
  unshiftGrid_shiftGrid180 grid lon hrange hrows

/-- Witness for C5 on the axis `[10, 200, 350]` with a single-row grid. -/
theorem c5_recentering_roundtrip_witness :
    unshiftGrid (shiftGrid180 ([[5, 6, 7]] : List (List ℚ)) [10, 200, 350]).1
      (shiftGrid180 ([[5, 6, 7]] : List (List ℚ)) [10, 200, 350]).2 =
      ([[5, 6, 7]], [10, 200, 350]) :=
  c5_recentering_roundtrip [10, 200, 350] [[5, 6, 7]] (by decide) (by decide)

/-- Claim C6: `calc_windspeed` is a pure transform with no side effects on the
dataset: after a successful call the dataset (level, longitude, latitude, time,
`u`, `v`) is unchanged, and the latitude stored in the result is the dataset's
latitude axis unmodified. -/
theorem c6_pure_transform (js : ERAJetStreamData) (idx : Nat) (level : Int) (s : ℚ)
    (li : Nat) (us vs : Grid)
    (hfind : findLevelIndex js.data.level level = Except.ok li)
    (hu : (js.data.u[idx]?).bind (fun lv => lv[li]?) = some us)
    (hv : (js.data.v[idx]?).bind (fun lv => lv[li]?) = some vs) :
    ∃ out, calc_windspeed js idx level s = Except.ok out ∧
      out.data = js.data ∧ out.lat = js.data.latitude :=
  ⟨_, calc_windspeed_ok js idx level s li us vs hfind hu hv, rfl, rfl⟩

/-- Witness for C6 on a minimal dataset. -/
theorem c6_pure_transform_witness :
    ∃ out, calc_windspeed jsEmptyGrid 0 250 1 = Except.ok out ∧
      out.data = jsEmptyGrid.data ∧ out.lat = jsEmptyGrid.data.latitude :=
  c6_pure_transform jsEmptyGrid 0 250 1 0 [] [] rfl (by decide) (by decide)

/-- Claim C7: for every processed timestep the driver loop produces exactly one
image save, named `outdir/date-level.png` from the timestep's decoded date and
the requested level, and prints exactly that filename immediately after the
save: the event trace is the concatenation, in time order, of one save
followed by one print per timestep. -/
theorem c7_one_image_per_timestep (fmt : Int → String) (outdir : String) (level : Int)
    (js : ERAJetStreamData) (li : Nat)
    (hfind : findLevelIndex js.data.level level = Except.ok li)
    (hslices : ∀ i, i < js.data.time.length →
      ((js.data.u[i]?).bind (fun lv => lv[li]?)).isSome ∧
      ((js.data.v[i]?).bind (fun lv => lv[li]?)).isSome) :
    runLoop fmt outdir level js =
      Except.ok (js.data.time.flatMap (fun t =>
        [Event.saveFig (figName outdir (fmt t) level),
         Event.printLine (figName outdir (fmt t) level)])) :=
  runLoop_ok fmt outdir level js li hfind hslices

/-- Witness for C7: a two-timestep run saves and then prints one image per
timestep, in order. -/
theorem c7_one_image_per_timestep_witness :
    runLoop fmtDemo "outdir" 250 jsTwoSteps =
      Except.ok [Event.saveFig (figName "outdir" (fmtDemo 7) 250),
        Event.printLine (figName "outdir" (fmtDemo 7) 250),
        Event.saveFig (figName "outdir" (fmtDemo 9) 250),
        Event.printLine (figName "outdir" (fmtDemo 9) 250)] := by
  have h := c7_one_image_per_timestep fmtDemo "outdir" 250 jsTwoSteps 0 rfl
    (fun i hi => by
      rcases i with _ | _ | i
      · exact ⟨by decide, by decide⟩
      · exact ⟨by decide, by decide⟩
      · simp only [jsTwoSteps, dsTwoSteps, List.length_cons, List.length_nil] at hi
        omega)
  rw [h]
  rfl

/-- Claim C8: the driver exits 0 after the level-listing mode and on normal
completion; when the output path exists and is not a directory it reports the
conflict and exits 1 before any image is produced; and when the output
directory does not exist it is created. -/
theorem c8_exit_codes (fs : String → PathKind) (fmt : Int → String) (args : Args)
    (js : ERAJetStreamData) (li : Nat)
    (hfind : findLevelIndex js.data.level args.level = Except.ok li)
    (hslices : ∀ i, i < js.data.time.length →
      ((js.data.u[i]?).bind (fun lv => lv[li]?)).isSome ∧
      ((js.data.v[i]?).bind (fun lv => lv[li]?)).isSome) :
    (args.listlevels = true →
      ∃ res, runMain fs fmt args js = Except.ok res ∧ res.exitCode = 0 ∧
        ∀ f, Event.saveFig f ∉ res.events) ∧
    (args.listlevels = false → fs args.outdir = PathKind.plainFile →
      ∃ res, runMain fs fmt args js = Except.ok res ∧ res.exitCode = 1 ∧
        Event.printLine (conflictMsg args.outdir) ∈ res.events ∧
        ∀ f, Event.saveFig f ∉ res.events) ∧
    (args.listlevels = false → fs args.outdir = PathKind.absent →
      ∃ res, runMain fs fmt args js = Except.ok res ∧ res.exitCode = 0 ∧
        Event.mkdirDone args.outdir ∈ res.events) ∧
    (args.listlevels = false → fs args.outdir = PathKind.directory →
      ∃ res, runMain fs fmt args js = Except.ok res ∧ res.exitCode = 0) := by
  have hloop := runLoop_ok fmt args.outdir args.level js li hfind hslices
  refine ⟨?_, ?_, ?_, ?_⟩
  · intro hl
    have hrm : runMain fs fmt args js = Except.ok
        { exitCode := 0,
          events := Event.printLine ("Levels available in dataset " ++
              args.datafile ++ ":") ::
            js.data.level.map (fun l => Event.printLine ("    " ++ toString l)) } := by
      simp only [runMain, hl, if_true]
    refine ⟨_, hrm, rfl, ?_⟩
    intro f hf
    rcases (List.mem_cons).mp hf with h | h
    · exact Event.noConfusion h
    · obtain ⟨l, _, hl2⟩ := List.mem_map.mp h
      exact Event.noConfusion hl2
  · intro hl hfs
    have hrm : runMain fs fmt args js = Except.ok
        { exitCode := 1, events := [Event.printLine (conflictMsg args.outdir)] } := by
      simp only [runMain, hl, Bool.false_eq_true, if_false, hfs]
    refine ⟨_, hrm, rfl, by simp, ?_⟩
    intro f hf
    rcases (List.mem_cons).mp hf with h | h
    · exact Event.noConfusion h
    · exact absurd h (List.not_mem_nil _)
  · intro hl hfs
    have hrm : runMain fs fmt args js = Except.ok
        { exitCode := 0,
          events := Event.mkdirDone args.outdir :: js.data.time.flatMap (fun t =>
            [Event.saveFig (figName args.outdir (fmt t) args.level),
             Event.printLine (figName args.outdir (fmt t) args.level)]) } := by
      simp only [runMain, hl, Bool.false_eq_true, if_false, hfs, hloop]
    exact ⟨_, hrm, rfl, by simp⟩
  · intro hl hfs
    have hrm : runMain fs fmt args js = Except.ok
        { exitCode := 0,
          events := js.data.time.flatMap (fun t =>
            [Event.saveFig (figName args.outdir (fmt t) args.level),
             Event.printLine (figName args.outdir (fmt t) args.level)]) } := by
      simp only [runMain, hl, Bool.false_eq_true, if_false, hfs, hloop]
    exact ⟨_, hrm, rfl⟩

/-- Witness for C8: with an absent output path, the driver creates the
directory and completes normally with exit code 0. -/
theorem c8_exit_codes_witness :
    ∃ res, runMain fsAbsent fmtDemo argsDemo jsTwoSteps = Except.ok res ∧
      res.exitCode = 0 ∧ Event.mkdirDone argsDemo.outdir ∈ res.events :=
  (c8_exit_codes fsAbsent fmtDemo argsDemo jsTwoSteps 0 rfl
    (fun i hi => by
      rcases i with _ | _ | i
      · exact ⟨by decide, by decide⟩
      · exact ⟨by decide, by decide⟩
      · simp only [jsTwoSteps, dsTwoSteps, List.length_cons, List.length_nil] at hi
        omega)).2.2.1 rfl rfl

/-- Counterexample to claim C10 as stated: with sensitivity -1 on a zero-wind
cell, `calc_windspeed` produces the cell value 0, which is not negative, so a
negative sensitivity does not produce an elementwise-negative grid. -/
theorem c10_counterexample :
    ∃ out, calc_windspeed jsZeroWind 0 250 (-1) = Except.ok out ∧
      ∃ row ∈ out.windspeed, ∃ x ∈ row, ¬ x < 0 := by
  have hok := calc_windspeed_ok jsZeroWind 0 250 (-1) 0 [[0]] [[0]] rfl
    (by decide) (by decide)
  have hcell := calc_windspeed_cell_formula jsZeroWind 250 (-1) [[0]] [[0]] rfl
    (by decide) (by decide) (by decide) 0 0 (by decide) (by decide)
  have hc0 : cellD [[0]] 0 ((shiftCut jsZeroWind.data.longitude + 0) %
      jsZeroWind.data.longitude.length) = 0 := by decide
  rw [hc0] at hcell
  refine ⟨_, hok, ?_⟩
  cases hW : ((windGrid (effectiveSensitivity 250 (-1)) [[0]] [[0]]).map
      (rotateCols (shiftCut jsZeroWind.data.longitude)))[0]? with
  | none => simp [cell, hW] at hcell
  | some row =>
    simp only [cell, hW] at hcell
    refine ⟨row, List.getElem?_mem hW, _, List.getElem?_mem hcell, ?_⟩
    have hz : (((0 : ℚ) : ℝ) ^ 2 + ((0 : ℚ) : ℝ) ^ 2) = 0 := by norm_num
    rw [hz, Real.sqrt_zero, mul_zero]
    exact lt_irrefl 0

/-- Claim C10 (amended): `calc_windspeed` performs no validation of the
sensitivity: any nonzero value, including a negative one, is used unchanged as
the scale factor; consequently a negative sensitivity yields an elementwise
non-positive grid, strictly negative at every cell where the wind components
are not both zero (the non-negativity of the output holds only under the
positive-sensitivity precondition). -/
theorem c10_negative_sensitivity (js : ERAJetStreamData) (idx : Nat) (level : Int)
    (s : ℚ) (li : Nat) (us vs : Grid)
    (hfind : findLevelIndex js.data.level level = Except.ok li)
    (hu : (js.data.u[idx]?).bind (fun lv => lv[li]?) = some us)
    (hv : (js.data.v[idx]?).bind (fun lv => lv[li]?) = some vs)
    (hlen : us.length = vs.length)
    (hrowu : ∀ row ∈ us, row.length = js.data.longitude.length)
    (hrowv : ∀ row ∈ vs, row.length = js.data.longitude.length)
    (hs : s < 0) :
    ∃ out, calc_windspeed js idx level s = Except.ok out ∧
      (∀ r k, r < us.length → k < js.data.longitude.length →
        cell out.windspeed r k =
          some ((s : ℝ) * Real.sqrt
            ((cellD us r ((shiftCut js.data.longitude + k) % js.data.longitude.length) : ℝ) ^ 2 +
             (cellD vs r ((shiftCut js.data.longitude + k) % js.data.longitude.length) : ℝ) ^ 2))) ∧
      (∀ row ∈ out.windspeed, ∀ x ∈ row, x ≤ 0) ∧
      (∀ r k, r < us.length → k < js.data.longitude.length →
        (cellD us r ((shiftCut js.data.longitude + k) % js.data.longitude.length) ≠ 0 ∨
         cellD vs r ((shiftCut js.data.longitude + k) % js.data.longitude.length) ≠ 0) →
        ∃ x, cell out.windspeed r k = some x ∧ x < 0) := by
  refine ⟨_, calc_windspeed_ok js idx level s li us vs hfind hu hv, ?_, ?_, ?_⟩
  · intro r k hr hk
    exact calc_windspeed_cell_formula js level s us vs hlen hrowu hrowv (ne_of_lt hs) r k hr hk
  · intro row hrow x hx
    obtain ⟨row0, hrow0, rfl⟩ := List.mem_map.mp hrow
    obtain ⟨p, q, rfl⟩ := windGrid_mem_eq _ us vs row0 _ hrow0 (rotateCols_mem _ row0 x hx)
    have hs' : ((effectiveSensitivity level s : ℚ) : ℝ) ≤ 0 := by
      rw [effectiveSensitivity_of_ne level s (ne_of_lt hs)]
      exact_mod_cast le_of_lt hs
    exact mul_nonpos_of_nonpos_of_nonneg hs' (Real.sqrt_nonneg _)
  · intro r k hr hk hne
    refine ⟨_, calc_windspeed_cell_formula js level s us vs hlen hrowu hrowv
      (ne_of_lt hs) r k hr hk, ?_⟩
    have hpos : (0 : ℝ) <
        (cellD us r ((shiftCut js.data.longitude + k) % js.data.longitude.length) : ℝ) ^ 2 +
        (cellD vs r ((shiftCut js.data.longitude + k) % js.data.longitude.length) : ℝ) ^ 2 := by
      rcases hne with hp | hq
      · have hp' : (cellD us r ((shiftCut js.data.longitude + k) %
            js.data.longitude.length) : ℝ) ≠ 0 := by exact_mod_cast hp
        have h1 := lt_of_le_of_ne (sq_nonneg (cellD us r ((shiftCut js.data.longitude + k) %
          js.data.longitude.length) : ℝ)) (Ne.symm (pow_ne_zero 2 hp'))
        nlinarith [sq_nonneg (cellD vs r ((shiftCut js.data.longitude + k) %
          js.data.longitude.length) : ℝ)]
      · have hq' : (cellD vs r ((shiftCut js.data.longitude + k) %
            js.data.longitude.length) : ℝ) ≠ 0 := by exact_mod_cast hq
        have h1 := lt_of_le_of_ne (sq_nonneg (cellD vs r ((shiftCut js.data.longitude + k) %
          js.data.longitude.length) : ℝ)) (Ne.symm (pow_ne_zero 2 hq'))
        nlinarith [sq_nonneg (cellD us r ((shiftCut js.data.longitude + k) %
          js.data.longitude.length) : ℝ)]
    have hsneg : ((s : ℚ) : ℝ) < 0 := by exact_mod_cast hs
    exact mul_neg_of_neg_of_pos hsneg (Real.sqrt_pos.mpr hpos)

/-- Witness for the amended C10: sensitivity -2 on the 3-4-5 dataset gives a
non-positive grid with a strictly negative first cell. -/
theorem c10_negative_sensitivity_witness :
    ∃ out, calc_windspeed jsTriangle 0 250 (-2) = Except.ok out ∧
      (∀ row ∈ out.windspeed, ∀ x ∈ row, x ≤ 0) ∧
      (∃ x, cell out.windspeed 0 0 = some x ∧ x < 0) := by
  obtain ⟨out, hok, hcells, hnp, hneg⟩ := c10_negative_sensitivity jsTriangle 0 250 (-2) 0
    [[3, 3]] [[4, 4]] rfl (by decide) (by decide) (by decide) (by decide) (by decide)
    (by decide)
  exact ⟨out, hok, hnp, hneg 0 0 (by decide) (by decide) (Or.inl (by decide))⟩

end Jetstream
